import Mathlib

/-!
Verification of the reconciliation core of `module_utils/k8s/raw.py`
(class `KubernetesRawModule`).

The embedding models:
  * YAML/JSON-like manifest values (`Value`), with Python dicts as
    insertion-ordered association lists;
  * Python truthiness and the `x or y` fallback idiom;
  * the `dictdiffer.diff`-emptiness test used for idempotence detection
    (`diffEmpty`): the external `dictdiffer` library yields no diff entries
    exactly when the two values are deeply equal, with mapping comparison
    insensitive to key order and sequence comparison index-based
    (Python numeric-tower coercions such as `True == 1` are outside the
    value domain modelled here);
  * the module's `__init__` parameter resolution (`initModule`);
  * the endpoint predicate `exact_match`;
  * `perform_action` as a function from the module parameters, the
    definition, and an oracle of cluster responses to a terminal outcome
    plus the trace of cluster calls issued.  `exit_json`/`fail_json`
    raise `SystemExit` and unhandled exceptions propagate, so every
    outcome constructor is terminal for the whole process.
-/

/-- A YAML/JSON-like Python value.  Dicts are insertion-ordered association
lists with (in practice) unique keys, as produced by the YAML loader. -/
inductive Value where
  | vnull : Value
  | vbool : Bool → Value
  | vint : Int → Value
  | vstr : String → Value
  | vlist : List Value → Value
  | vdict : List (String × Value) → Value

/-- The fields of a Python dict (or of an object's `to_dict()`). -/
abbrev Fields := List (String × Value)

/-- `d.get(k)` / `d[k]` on a Python dict: the value at the first matching
key, if any. -/
def lookup : Fields → String → Option Value
  | [], _ => none
  | (k, v) :: rest, key => if k = key then some v else lookup rest key

/-- Python truthiness of a value (`bool(v)`), `None` and empty containers
being falsy. -/
def truthy : Value → Bool
  | .vnull => false
  | .vbool b => b
  | .vint n => n != 0
  | .vstr s => s != ""
  | .vlist xs => !xs.isEmpty
  | .vdict kvs => !kvs.isEmpty

/-- Truthiness of an optional value; a missing value (Python `None`)
is falsy. -/
def truthyO : Option Value → Bool
  | some v => truthy v
  | none => false

/-- The Python idiom `a or b`: `b` when `a` is missing or falsy. -/
def pyOr (a b : Option Value) : Option Value :=
  match a with
  | some v => if truthy v then some v else b
  | none => b

/-- Python `s.endswith(t)`: `t` is a (case-sensitive) suffix of `s`. -/
def strEndsWith (s t : String) : Bool :=
  t.data.isSuffixOf s.data

/-- `a`'s keys are all present in `b`. -/
def subsetKeys (a b : Fields) : Bool :=
  a.all (fun kv => (lookup b kv.1).isSome)

mutual
/-- `dictdiffer.diff v w` yields no entries: deep structural equality with
key-order-insensitive mapping comparison and index-based sequence
comparison; values of different shapes always differ. -/
def diffEmpty : Value → Value → Bool
  | .vnull, .vnull => true
  | .vbool a, .vbool b => a == b
  | .vint a, .vint b => a == b
  | .vstr a, .vstr b => a == b
  | .vlist a, .vlist b => diffEmptyL a b
  | .vdict a, .vdict b => subsetKeys a b && subsetKeys b a && diffEmptyD a b
  | _, _ => false

/-- Index-wise diff-emptiness of two sequences. -/
def diffEmptyL : List Value → List Value → Bool
  | [], [] => true
  | x :: xs, y :: ys => diffEmpty x y && diffEmptyL xs ys
  | _, _ => false

/-- Each entry of `a` has a diff-empty counterpart in `b`. -/
def diffEmptyD : Fields → Fields → Bool
  | [], _ => true
  | (k, v) :: rest, b =>
      (match lookup b k with
       | some w => diffEmpty v w
       | none => false) && diffEmptyD rest b
end

/-! ## The diff step of `perform_action` (lines 149–154)

`existing_attrs = existing.to_dict()`;
`shared_attrs = {k: existing_attrs.get(k) for k in definition.keys()}`;
`match = len(list(diff(definition, shared_attrs))) == 0`. -/

/-- `existing_attrs.get(k)`: the existing object's value at `k`,
Python `None` when the key is absent. -/
def getOr (ex : Fields) (k : String) : Value :=
  (lookup ex k).getD .vnull

/-- The projection of the existing object's attributes onto exactly the
top-level keys of the desired definition (line 150–152). -/
def sharedAttrs (defn ex : Fields) : Fields :=
  defn.map (fun kv => (kv.1, getOr ex kv.1))

/-- Lines 153–154: the desired definition matches the existing object iff
`dictdiffer.diff(definition, shared_attrs)` has no entries. -/
def objMatches (defn ex : Fields) : Bool :=
  diffEmpty (.vdict defn) (.vdict (sharedAttrs defn ex))

/-! ## Cluster interface

The authenticated client's resource endpoint exposes
`get/list/create/replace/update/delete`; each call either returns an
object (modelled by its `to_dict()` fields / value) or raises an
`ApiException` carrying `status` and `body`.  A run touches each
endpoint method at most once, so the cluster's behaviour is modelled as
one pre-determined response per method. -/

/-- The `status` and `body` of a `kubernetes.client.rest.ApiException`. -/
structure ApiErr where
  status : Int
  body : String
deriving DecidableEq

/-- The cluster's response to each endpoint method, used at most once per
`perform_action` run.  `getR` returns the existing object's `to_dict()`
fields; the mutating calls return the resulting object's `to_dict()`
value. -/
structure Cluster where
  getR : Except ApiErr Fields
  listR : Except ApiErr Value
  createR : Except ApiErr Value
  replaceR : Except ApiErr Value
  updateR : Except ApiErr Value
  deleteR : Except ApiErr Unit

/-- Module parameters consumed by `perform_action`: `self.check_mode`,
`self.params['state']`, `['force']`, `['name']`, `['namespace']`. -/
structure Params where
  checkMode : Bool
  state : Option String
  force : Bool
  name : Option Value
  ns : Option Value

/-- One cluster API call issued by the module, with the arguments the
source passes to it. -/
inductive Call where
  | list : Option Value → Call
  | get : Option Value → Option Value → Call
  | create : Option Value → Call
  | replace : Option Value → Option Value → Call
  | update : Option Value → Option Value → Call
  | delete : Option Value → Option Value → Call

/-- Whether a call mutates cluster state. -/
def Call.isMutating : Call → Bool
  | .list _ => false
  | .get _ _ => false
  | _ => true

/-- Terminal outcome of one `perform_action` invocation.  `exit_json` and
`fail_json` raise `SystemExit`, an `ApiException` not caught by the module
propagates (`uncaught`), and reading a never-assigned local raises
`UnboundLocalError` (`unboundLocal`); every constructor therefore ends the
process. -/
inductive Outcome where
  | exited : Bool → Value → Outcome
  | failed : String → Option Int → Outcome
  | uncaught : Int → String → Outcome
  | unboundLocal : String → Outcome
  | pyError : String → Outcome

/-- Whether an outcome is a `fail_json` failure report. -/
def Outcome.isFailed : Outcome → Bool
  | .failed _ _ => true
  | _ => false

/-- `definition.get('metadata', {}).get(f)` (manifest `metadata` is a
mapping when present). -/
def metaField (defn : Fields) (f : String) : Option Value :=
  match lookup defn "metadata" with
  | some (.vdict m) => lookup m f
  | _ => none

/-- Line 97: `definition.get('metadata', {}).get('name') or
self.params.get('name')`. -/
def resolvedName (p : Params) (defn : Fields) : Option Value :=
  pyOr (metaField defn "name") p.name

/-- Line 98: the namespace from the definition's metadata, with the
`namespace` parameter as fallback. -/
def resolvedNs (p : Params) (defn : Fields) : Option Value :=
  pyOr (metaField defn "namespace") p.ns

/-- Lines 116–167 of `perform_action`: the reconciliation decision made
after `existing` has been fetched (`none` after a 404).  Returns the
terminal outcome and the cluster calls issued from this point on.
In the force-replace and update branches, the `if not self.check_mode`
guard encloses the assignment of `k8s_obj` but not the subsequent
`return_attributes['result'] = k8s_obj.to_dict()`, so under check mode
those two branches read the never-assigned local `k8s_obj`. -/
def afterGet (p : Params) (c : Cluster) (defn : Fields)
    (name ns : Option Value) (existing : Option Fields) :
    Outcome × List Call :=
  if p.state = some "absent" then
    match existing with
    | none => (.exited false (.vdict []), [])
    | some _ =>
        if p.checkMode then (.exited true (.vdict []), [])
        else
          match c.deleteR with
          | .error e =>
              (.failed ("Failed to delete object: " ++ e.body) (some e.status),
               [.delete name ns])
          | .ok _ => (.exited true (.vdict []), [.delete name ns])
  else
    match existing with
    | none =>
        if p.checkMode then (.exited true (.vdict []), [])
        else
          match c.createR with
          | .error e => (.uncaught e.status e.body, [.create ns])
          | .ok v => (.exited true v, [.create ns])
    | some ex =>
        if p.force then
          if p.checkMode then (.unboundLocal "k8s_obj", [])
          else
            match c.replaceR with
            | .error e =>
                (.failed ("Failed to replace object: " ++ e.body) (some e.status),
                 [.replace name ns])
            | .ok v => (.exited true v, [.replace name ns])
        else
          if objMatches defn ex then (.exited false (.vdict ex), [])
          else
            if p.checkMode then (.unboundLocal "k8s_obj", [])
            else
              match c.updateR with
              | .error e =>
                  (.failed ("Failed to patch object: " ++ e.body) none,
                   [.update name ns])
              | .ok v => (.exited true v, [.update name ns])

/-- Lines 93–167: one `perform_action(resource, definition)` invocation.
`remove_aliases()` (line 102) only pops alias parameter names from
`self.params` and issues no cluster call, so it has no effect on this
model.  `definition['kind']` raises `KeyError` when absent, and
`.endswith` on a non-string raises `AttributeError`; both are runtime
crashes (`pyError`).  Note line 104 tests `endswith('list')` — lowercase —
and line 105 lists in `self.params.get('namespace')`, not the resolved
namespace. -/
def performAction (p : Params) (c : Cluster) (defn : Fields) :
    Outcome × List Call :=
  let name := resolvedName p defn
  let ns := resolvedNs p defn
  match lookup defn "kind" with
  | some (.vstr k) =>
      if strEndsWith k "list" then
        match c.listR with
        | .error e => (.uncaught e.status e.body, [.list p.ns])
        | .ok v => (.exited false v, [.list p.ns])
      else
        match c.getR with
        | .error e =>
            if e.status ≠ 404 then
              (.failed ("Failed to retrieve requested object: " ++ e.body)
                 (some e.status),
               [.get name ns])
            else
              let r := afterGet p c defn name ns none
              (r.1, .get name ns :: r.2)
        | .ok ex =>
            let r := afterGet p c defn name ns (some ex)
            (r.1, .get name ns :: r.2)
  | some _ => (.pyError "AttributeError: endswith on non-string kind", [])
  | none => (.pyError "KeyError: kind", [])

/-! ## Endpoint resolution (lines 79–91) -/

/-- A candidate API endpoint from the client's resource registry, with the
attributes `exact_match` inspects. -/
structure APIResource where
  kind : String
  group : String
  apiversion : String
deriving DecidableEq

/-- Line 82: `resource.kind == definition.get('kind')`.  A missing or
non-string definition field makes the Python `==` against a string
`False`. -/
def kindEq (r : APIResource) : Option Value → Bool
  | some (.vstr s) => r.kind == s
  | _ => false

/-- Line 83: `'/'.join([resource.group, resource.apiversion]) ==
definition.get('apiVersion')`. -/
def apiVersionEq (r : APIResource) : Option Value → Bool
  | some (.vstr s) => (r.group ++ "/" ++ r.apiversion) == s
  | _ => false

/-- Lines 79–85, `exact_match(definition)(resource)`: both equalities
must hold (`all([...])`). -/
def exact_match (defn : Fields) (r : APIResource) : Bool :=
  kindEq r (lookup defn "kind") && apiVersionEq r (lookup defn "apiVersion")

/-- Modelled from the spec: the external client's
`search_resources(predicate)` (line 90) is collaborator functionality not
in this repository; per the spec it "must find exactly the first endpoint
satisfying both equalities among all endpoints known to the client". -/
def search_resources (rs : List APIResource) (pred : APIResource → Bool) :
    Option APIResource :=
  rs.find? pred

/-! ## `__init__` parameter resolution (lines 37–71) -/

/-- Terminal result of the `__init__` parameter resolution: either the
resolved `api_version`/`kind` and the inline definition list, or a
`fail_json` report.  The `msg` of the api_version failure is a 2-tuple of
strings in the source (lines 62–65), hence `List String` here.  No cluster
client exists yet at this point (`self.client = None` until
`execute_module`), so no cluster call can be issued. -/
inductive InitOutcome where
  | ok : Option Value → Option Value → List Fields → InitOutcome
  | failJson : List String → InitOutcome

/-- Lines 49–71: pop `kind`/`api_version`/`resource_definition`; when the
latter is a dict, a non-empty body overrides `api_version` and `kind` with
its own `apiVersion`/`kind` fields (absent fields override with `None`),
then a falsy `api_version` and, after it, a falsy `kind` each
`fail_json`.  The `ok` constructor carries (api_version, kind,
resource_definitions).  When `resource_definition` is not a dict the
checks are skipped entirely and the inline definition list stays empty
(loading from `src` is external `load_resource_definitions`). -/
def initModule (kindP apiP rdP : Option Value) : InitOutcome :=
  match rdP with
  | some (.vdict rd) =>
      let api := if rd.isEmpty then apiP else lookup rd "apiVersion"
      let kind := if rd.isEmpty then kindP else lookup rd "kind"
      if truthyO api = false then
        .failJson
          ["Error: no api_version specified. Use the api_version parameter, or provide it as part of a ",
           "resource_definition."]
      else if truthyO kind = false then
        .failJson
          ["Error: no kind specified. Use the kind parameter, or provide it as part of a resource_definition"]
      else .ok api kind [rd]
  | _ => .ok apiP kindP []

/-- Lines 87–91, `execute_module`: construct the client, then iterate the
loaded definitions.  Line 90 evaluates
`self.client.search_resources(self.exact_match(definition))` — but
`exact_match` (line 79) is declared with the single parameter
`definition` and no `staticmethod` decorator, so the bound-method call
passes `self` and `definition`, two positional arguments, and raises
`TypeError` on the first loop iteration, before `search_resources` or
`perform_action` can run.  The uncaught `TypeError` is terminal for the
process (as every `Outcome` is), so the fold short-circuits on the first
outcome and later definitions are never examined; no cluster call is
issued.  `none` means the loop ran zero times. -/
def executeModule (_p : Params) (_c : Cluster) (defs : List Fields) :
    Option (Outcome × List Call) :=
  defs.foldl
    (fun acc _d =>
      match acc with
      | some r => some r
      | none =>
          some (.pyError
            "TypeError: exact_match() takes 1 positional argument but 2 were given",
            []))
    none

/-! ### Helper lemmas on `lookup`, `sharedAttrs` and the diff -/

theorem lookup_isSome_of_mem (l : Fields) (k : String) (v : Value)
    (h : (k, v) ∈ l) : (lookup l k).isSome := by
  induction l with
  | nil => cases h
  | cons hd tl ih =>
      obtain ⟨k0, v0⟩ := hd
      by_cases hk : k0 = k
      · simp [lookup, hk]
      · rcases List.mem_cons.mp h with heq | hmem
        · cases heq; exact absurd rfl hk
        · simp only [lookup, if_neg hk]
          exact ih hmem

theorem lookup_sharedAttrs (defn ex : Fields) (key : String) :
    lookup (sharedAttrs defn ex) key =
      (lookup defn key).map (fun _ => getOr ex key) := by
  induction defn with
  | nil => rfl
  | cons kv rest ih =>
      obtain ⟨k, v⟩ := kv
      by_cases h : k = key
      · subst h; simp [sharedAttrs, lookup]
      · simp only [sharedAttrs, List.map_cons, lookup, if_neg h]
        simpa [sharedAttrs] using ih

theorem lookup_sharedAttrs_of_isSome (defn ex : Fields) (key : String)
    (h : (lookup defn key).isSome) :
    lookup (sharedAttrs defn ex) key = some (getOr ex key) := by
  rcases Option.isSome_iff_exists.mp h with ⟨w, hw⟩
  rw [lookup_sharedAttrs, hw, Option.map_some']

theorem subsetKeys_sharedAttrs_right (defn ex : Fields) :
    subsetKeys defn (sharedAttrs defn ex) = true := by
  simp only [subsetKeys, List.all_eq_true]
  intro kv hkv
  rw [lookup_sharedAttrs_of_isSome defn ex kv.1
    (lookup_isSome_of_mem defn kv.1 kv.2 hkv)]
  rfl

theorem subsetKeys_sharedAttrs_left (defn ex : Fields) :
    subsetKeys (sharedAttrs defn ex) defn = true := by
  simp only [subsetKeys, List.all_eq_true, sharedAttrs, List.mem_map]
  rintro kv ⟨a, ha, rfl⟩
  exact lookup_isSome_of_mem defn a.1 a.2 ha

theorem diffEmptyD_sharedAttrs (defn ex : Fields) :
    ∀ sub : Fields, (∀ kv ∈ sub, (lookup defn kv.1).isSome) →
      (diffEmptyD sub (sharedAttrs defn ex) = true ↔
        ∀ kv ∈ sub, diffEmpty kv.2 (getOr ex kv.1) = true) := by
  intro sub
  induction sub with
  | nil => intro _; simp [diffEmptyD]
  | cons kv rest ih =>
      intro hmem
      obtain ⟨k, v⟩ := kv
      have h1 : (lookup defn k).isSome := by
        simpa using hmem (k, v) (List.mem_cons_self _ _)
      have hl : lookup (sharedAttrs defn ex) k = some (getOr ex k) :=
        lookup_sharedAttrs_of_isSome defn ex k h1
      have ihr := ih (fun kv h => hmem kv (List.mem_cons_of_mem _ h))
      simp only [diffEmptyD, hl, Bool.and_eq_true, ihr, List.forall_mem_cons]

/-- Every call issued after the fetch of the existing object is a
mutating call: `afterGet` never issues a `get` or a `list`. -/
theorem afterGet_calls_mutating (p : Params) (c : Cluster) (defn : Fields)
    (name ns : Option Value) (existing : Option Fields) :
    ∀ x ∈ (afterGet p c defn name ns existing).2, x.isMutating = true := by
  intro x hx
  unfold afterGet at hx
  repeat' split at hx
  all_goals simp_all [Call.isMutating]

theorem kindEq_iff (r : APIResource) (o : Option Value) :
    kindEq r o = true ↔ o = some (.vstr r.kind) := by
  rcases o with _ | v
  · simp [kindEq]
  · cases v <;> simp [kindEq]
    exact eq_comm

theorem apiVersionEq_iff (r : APIResource) (o : Option Value) :
    apiVersionEq r o = true ↔
      o = some (.vstr (r.group ++ "/" ++ r.apiversion)) := by
  rcases o with _ | v
  · simp [apiVersionEq]
  · cases v <;> simp [apiVersionEq]
    exact eq_comm

/-! ## Claim theorems -/

/-- C1 (code bug): the check-mode contract fails on the force-replace
branch.  At the failing input — check mode on, `state=present` (default),
`force` set, existing object present — `perform_action` does not report
the `changed=true` verdict of the non-check-mode run: it reads the local
`k8s_obj`, which no statement has assigned (line 145 sits outside the
`if not self.check_mode` guard), raising `UnboundLocalError`.  The second
conjunct evaluates the non-check-mode run at the same input, which
replaces and exits with `changed=true`. -/
theorem claim_C1_check_mode_divergence :
    (performAction ⟨true, none, true, none, none⟩
       ⟨.ok [], .ok (.vdict []), .ok (.vdict []), .ok (.vdict [("r", Value.vint 1)]),
        .ok (.vdict []), .ok ()⟩
       [("kind", Value.vstr "ConfigMap")]).1 = .unboundLocal "k8s_obj"
    ∧ (performAction ⟨false, none, true, none, none⟩
       ⟨.ok [], .ok (.vdict []), .ok (.vdict []), .ok (.vdict [("r", Value.vint 1)]),
        .ok (.vdict []), .ok ()⟩
       [("kind", Value.vstr "ConfigMap")]).1 =
      .exited true (.vdict [("r", Value.vint 1)]) :=
  ⟨rfl, rfl⟩

/-- C2: `exact_match(D)` holds on a candidate endpoint iff the endpoint's
`kind` equals `D['kind']` (case-sensitive string equality) and the joined
string `group ++ "/" ++ version` equals `D['apiVersion']`; any endpoint
selected by `search_resources` with this predicate satisfies both
equalities; and for a core-API endpoint (empty `group`) the joined form is
`"/version"`. -/
theorem claim_C2_exact_match (defn : Fields) (r : APIResource) :
    (exact_match defn r = true ↔
      lookup defn "kind" = some (.vstr r.kind) ∧
      lookup defn "apiVersion" = some (.vstr (r.group ++ "/" ++ r.apiversion)))
    ∧ (∀ rs r', search_resources rs (exact_match defn) = some r' →
        lookup defn "kind" = some (.vstr r'.kind) ∧
        lookup defn "apiVersion" = some (.vstr (r'.group ++ "/" ++ r'.apiversion)))
    ∧ (r.group = "" →
        (exact_match defn r = true ↔
          lookup defn "kind" = some (.vstr r.kind) ∧
          lookup defn "apiVersion" = some (.vstr ("/" ++ r.apiversion)))) := by
  have part1 : ∀ r' : APIResource, exact_match defn r' = true ↔
      lookup defn "kind" = some (.vstr r'.kind) ∧
      lookup defn "apiVersion" = some (.vstr (r'.group ++ "/" ++ r'.apiversion)) := by
    intro r'
    rw [exact_match, Bool.and_eq_true, kindEq_iff, apiVersionEq_iff]
  refine ⟨part1 r, fun rs r' hfind => ?_, fun hg => ?_⟩
  · exact (part1 r').mp (List.find?_some hfind)
  · have h2 : r.group ++ "/" ++ r.apiversion = "/" ++ r.apiversion := by
      rw [hg, show ("" : String) ++ "/" = "/" from rfl]
    rw [← h2]
    exact part1 r

/-- Witness for C2 at a concrete core-API definition and endpoint. -/
theorem claim_C2_exact_match_witness :
    exact_match [("kind", Value.vstr "Pod"), ("apiVersion", Value.vstr "/v1")]
      ⟨"Pod", "", "v1"⟩ = true ∧
    search_resources [⟨"Pod", "", "v1"⟩]
      (exact_match [("kind", Value.vstr "Pod"), ("apiVersion", Value.vstr "/v1")]) =
      some ⟨"Pod", "", "v1"⟩ :=
  ⟨(claim_C2_exact_match _ ⟨"Pod", "", "v1"⟩).1.mpr ⟨rfl, rfl⟩, rfl⟩

/-- C3 counterexample: the kind `"NodeList"` ends with the literal suffix
`"List"`, yet `perform_action` does not take the list short-circuit: line
104 tests the lowercase suffix `'list'`.  At this input it issues a `get`
(and no list call) and exits with `changed=true` — against the claimed
`{changed: false, result: list}` with only a list call. -/
theorem claim_C3_counterexample :
    strEndsWith "NodeList" "List" = true ∧
    performAction ⟨true, some "absent", false, none, none⟩
      ⟨.ok [], .error ⟨1, "x"⟩, .ok (.vdict []), .ok (.vdict []), .ok (.vdict []), .ok ()⟩
      [("kind", Value.vstr "NodeList")]
      = (.exited true (.vdict []), [.get none none]) :=
  ⟨rfl, rfl⟩

/-- C3 amended: the suffix the code tests is the lowercase `"list"`.  For
every definition whose kind ends in `"list"`, `perform_action` issues
exactly one cluster call — a list scoped to the `namespace` parameter —
and on success terminates with `changed=false` and the list as result;
for kinds not ending in `"list"` (including Kubernetes-style `...List`
kinds) no list call is ever issued. -/
theorem claim_C3_amended (p : Params) (c : Cluster) (defn : Fields)
    (k : String)
    (hk : lookup defn "kind" = some (.vstr k)) :
    (strEndsWith k "list" = true →
      (performAction p c defn).2 = [.list p.ns]
      ∧ ∀ v, c.listR = .ok v →
          performAction p c defn = (.exited false v, [.list p.ns]))
    ∧ (strEndsWith k "list" = false →
      ∀ ns', Call.list ns' ∉ (performAction p c defn).2) := by
  refine ⟨fun hend => ⟨?_, fun v hv => by simp [performAction, hk, hend, hv]⟩,
    fun hend ns' hmem => ?_⟩
  · rcases hlr : c.listR with e | v <;> simp [performAction, hk, hend, hlr]
  · rcases hg : c.getR with e | ex
    · by_cases h404 : e.status = 404
      · simp [performAction, hk, hend, hg, h404] at hmem
        have := afterGet_calls_mutating p c defn
          (resolvedName p defn) (resolvedNs p defn) none _ hmem
        simp [Call.isMutating] at this
      · simp [performAction, hk, hend, hg, h404] at hmem
    · simp [performAction, hk, hend, hg] at hmem
      have := afterGet_calls_mutating p c defn
        (resolvedName p defn) (resolvedNs p defn) (some ex) _ hmem
      simp [Call.isMutating] at this

/-- Witness for the amended C3 at the lowercase-suffix kind `"nodelist"`. -/
theorem claim_C3_amended_witness :
    performAction ⟨false, none, false, none, some (Value.vstr "ns1")⟩
      ⟨.ok [], .ok (.vdict []), .ok (.vdict []), .ok (.vdict []), .ok (.vdict []), .ok ()⟩
      [("kind", Value.vstr "nodelist")]
      = (.exited false (.vdict []), [.list (some (Value.vstr "ns1"))]) :=
  ((claim_C3_amended ⟨false, none, false, none, some (Value.vstr "ns1")⟩
      ⟨.ok [], .ok (.vdict []), .ok (.vdict []), .ok (.vdict []), .ok (.vdict []), .ok ()⟩
      [("kind", Value.vstr "nodelist")] "nodelist" rfl).1 (by decide)).2 _ rfl

/-- C4: `matches(D, E)` is true iff for every top-level key of `D` the
deep diff between `D`'s value and `E`'s value at that key (Python `None`
when absent from `E`) is empty; and any `E'` agreeing with `E` on `D`'s
top-level keys — i.e. differing only in keys outside `D` — yields the
same verdict. -/
theorem claim_C4_matches (defn ex : Fields) :
    (objMatches defn ex = true ↔
      ∀ kv ∈ defn, diffEmpty kv.2 (getOr ex kv.1) = true)
    ∧ ∀ ex' : Fields, (∀ kv ∈ defn, lookup ex' kv.1 = lookup ex kv.1) →
        objMatches defn ex' = objMatches defn ex := by
  constructor
  · have hd : objMatches defn ex = true ↔
        diffEmptyD defn (sharedAttrs defn ex) = true := by
      simp [objMatches, diffEmpty, subsetKeys_sharedAttrs_right,
        subsetKeys_sharedAttrs_left]
    rw [hd]
    exact diffEmptyD_sharedAttrs defn ex defn
      (fun kv h => lookup_isSome_of_mem defn kv.1 kv.2 h)
  · intro ex' h
    have hshared : sharedAttrs defn ex' = sharedAttrs defn ex := by
      unfold sharedAttrs
      apply List.map_congr_left
      intro a ha
      simp [getOr, h a ha]
    simp [objMatches, hshared]

/-- Witness for C4: an existing object with an extra key matches, and
changing that unrelated key leaves the verdict unchanged. -/
theorem claim_C4_matches_witness :
    objMatches [("data", Value.vstr "v")]
        [("data", Value.vstr "v"), ("extra", Value.vint 5)] = true ∧
    objMatches [("data", Value.vstr "v")]
        [("data", Value.vstr "v"), ("other", Value.vbool true)] =
      objMatches [("data", Value.vstr "v")]
        [("data", Value.vstr "v"), ("extra", Value.vint 5)] :=
  ⟨(claim_C4_matches _ _).1.mpr (by
      intro kv h
      rw [List.mem_singleton] at h
      subst h
      rfl),
   (claim_C4_matches _ _).2 _ (by
      intro kv h
      rw [List.mem_singleton] at h
      subst h
      rfl)⟩

/-- C5: a get failure with status other than 404 terminates the run with
a failure whose message is the fixed prefix followed by the response body
and whose `error` field is the status code, after exactly one `get`; a
404 is not an error — reconciliation continues exactly as with
`existing = absent`, and no further `get` is ever issued (no retry). -/
theorem claim_C5_get_error (p : Params) (c : Cluster) (defn : Fields)
    (k : String) (e : ApiErr)
    (hk : lookup defn "kind" = some (.vstr k))
    (hl : strEndsWith k "list" = false)
    (hg : c.getR = .error e) :
    (e.status ≠ 404 →
      performAction p c defn =
        (.failed ("Failed to retrieve requested object: " ++ e.body)
           (some e.status),
         [.get (resolvedName p defn) (resolvedNs p defn)]))
    ∧ (e.status = 404 →
      performAction p c defn =
        ((afterGet p c defn (resolvedName p defn) (resolvedNs p defn) none).1,
         .get (resolvedName p defn) (resolvedNs p defn) ::
           (afterGet p c defn (resolvedName p defn) (resolvedNs p defn) none).2)
      ∧ ∀ n' ns', Call.get n' ns' ∉
          (afterGet p c defn (resolvedName p defn) (resolvedNs p defn) none).2) := by
  refine ⟨fun h404 => ?_, fun h404 => ⟨?_, fun n' ns' hmem => ?_⟩⟩
  · simp [performAction, hk, hl, hg, h404]
  · simp [performAction, hk, hl, hg, h404]
  · have := afterGet_calls_mutating p c defn
      (resolvedName p defn) (resolvedNs p defn) none _ hmem
    simp [Call.isMutating] at this

/-- Witness for C5 at a concrete 403 get failure. -/
theorem claim_C5_get_error_witness :
    performAction ⟨false, none, false, none, none⟩
      ⟨.error ⟨403, "forbidden"⟩, .ok (.vdict []), .ok (.vdict []), .ok (.vdict []),
       .ok (.vdict []), .ok ()⟩
      [("kind", Value.vstr "ConfigMap")]
      = (.failed "Failed to retrieve requested object: forbidden" (some 403),
         [.get none none]) :=
  (claim_C5_get_error ⟨false, none, false, none, none⟩
      ⟨.error ⟨403, "forbidden"⟩, .ok (.vdict []), .ok (.vdict []), .ok (.vdict []),
       .ok (.vdict []), .ok ()⟩
      [("kind", Value.vstr "ConfigMap")] "ConfigMap" ⟨403, "forbidden"⟩
      rfl rfl rfl).1 (by decide)

/-- C6 counterexample: an `ApiException` raised by the create call (which
lines 131–136 do not wrap in try/except) propagates uncaught — the module
produces no `fail_json` report containing the response body, refuting the
claim that every create error aborts with such a failure message. -/
theorem claim_C6_counterexample :
    (performAction ⟨false, none, false, none, none⟩
       ⟨.error ⟨404, ""⟩, .ok (.vdict []), .error ⟨500, "boom"⟩, .ok (.vdict []),
        .ok (.vdict []), .ok ()⟩
       [("kind", Value.vstr "ConfigMap")]).1 = .uncaught 500 "boom"
    ∧ ((performAction ⟨false, none, false, none, none⟩
       ⟨.error ⟨404, ""⟩, .ok (.vdict []), .error ⟨500, "boom"⟩, .ok (.vdict []),
        .ok (.vdict []), .ok ()⟩
       [("kind", Value.vstr "ConfigMap")]).1).isFailed = false :=
  ⟨rfl, rfl⟩

/-- C6 amended: delete, replace and update errors are caught and abort the
run with a failure message containing the response body — with the status
code in the `error` field for delete and replace and omitted for update —
while create and list errors are not caught by `perform_action` and
propagate as uncaught exceptions (fatal, but with no module failure
report). -/
theorem claim_C6_amended (p : Params) (c : Cluster) (defn : Fields)
    (k : String) (e : ApiErr)
    (hk : lookup defn "kind" = some (.vstr k)) :
    (strEndsWith k "list" = false → p.state = some "absent" →
      p.checkMode = false →
      ∀ ex, c.getR = .ok ex → c.deleteR = .error e →
        (performAction p c defn).1 =
          .failed ("Failed to delete object: " ++ e.body) (some e.status))
    ∧ (strEndsWith k "list" = false → p.state ≠ some "absent" →
      p.checkMode = false → p.force = true →
      ∀ ex, c.getR = .ok ex → c.replaceR = .error e →
        (performAction p c defn).1 =
          .failed ("Failed to replace object: " ++ e.body) (some e.status))
    ∧ (strEndsWith k "list" = false → p.state ≠ some "absent" →
      p.checkMode = false → p.force = false →
      ∀ ex, c.getR = .ok ex → objMatches defn ex = false →
      c.updateR = .error e →
        (performAction p c defn).1 =
          .failed ("Failed to patch object: " ++ e.body) none)
    ∧ (strEndsWith k "list" = false → p.state ≠ some "absent" →
      p.checkMode = false →
      ∀ e', c.getR = .error e' → e'.status = 404 → c.createR = .error e →
        (performAction p c defn).1 = .uncaught e.status e.body)
    ∧ (strEndsWith k "list" = true → c.listR = .error e →
        (performAction p c defn).1 = .uncaught e.status e.body) := by
  refine ⟨fun hl hst hcm ex hg hd => ?_, fun hl hst hcm hf ex hg hr => ?_,
    fun hl hst hcm hf ex hg hm hu => ?_, fun hl hst hcm e' hg h404 hc => ?_,
    fun hl hlist => ?_⟩
  · simp [performAction, afterGet, hk, hl, hst, hcm, hg, hd]
  · simp [performAction, afterGet, hk, hl, hst, hcm, hf, hg, hr]
  · simp [performAction, afterGet, hk, hl, hst, hcm, hf, hg, hm, hu]
  · simp [performAction, afterGet, hk, hl, hst, hcm, hg, h404, hc]
  · simp [performAction, hk, hl, hlist]

/-- Witness for the amended C6 at a concrete delete conflict. -/
theorem claim_C6_amended_witness :
    (performAction ⟨false, some "absent", false, none, none⟩
       ⟨.ok [], .ok (.vdict []), .ok (.vdict []), .ok (.vdict []), .ok (.vdict []),
        .error ⟨409, "conflict"⟩⟩
       [("kind", Value.vstr "ConfigMap")]).1 =
      .failed "Failed to delete object: conflict" (some 409) :=
  (claim_C6_amended ⟨false, some "absent", false, none, none⟩
     ⟨.ok [], .ok (.vdict []), .ok (.vdict []), .ok (.vdict []), .ok (.vdict []),
      .error ⟨409, "conflict"⟩⟩
     [("kind", Value.vstr "ConfigMap")] "ConfigMap" ⟨409, "conflict"⟩ rfl).1
    rfl rfl rfl [] rfl rfl

/-- C7: with a non-empty inline resource definition, its
`apiVersion`/`kind` fields take precedence over the separately supplied
parameters (the result of a successful resolution mentions only the
definition's fields); if the resolved `api_version` is falsy the module
fails with the message naming `api_version`, else if the resolved `kind`
is falsy it fails with the message naming `kind`.  `initModule` issues no
cluster call on any path — the client is not even constructed until
`execute_module`. -/
theorem claim_C7_init_precedence (kp ap : Option Value) (rd : Fields)
    (hne : rd ≠ []) :
    (truthyO (lookup rd "apiVersion") = false →
      initModule kp ap (some (.vdict rd)) =
        .failJson
          ["Error: no api_version specified. Use the api_version parameter, or provide it as part of a ",
           "resource_definition."])
    ∧ (truthyO (lookup rd "apiVersion") = true →
      truthyO (lookup rd "kind") = false →
      initModule kp ap (some (.vdict rd)) =
        .failJson
          ["Error: no kind specified. Use the kind parameter, or provide it as part of a resource_definition"])
    ∧ (truthyO (lookup rd "apiVersion") = true →
      truthyO (lookup rd "kind") = true →
      initModule kp ap (some (.vdict rd)) =
        .ok (lookup rd "apiVersion") (lookup rd "kind") [rd]) := by
  have hempty : rd.isEmpty = false := by
    cases rd with
    | nil => exact absurd rfl hne
    | cons a l => rfl
  refine ⟨fun hav => ?_, fun hav hkd => ?_, fun hav hkd => ?_⟩
  · simp [initModule, hempty, hav]
  · simp [initModule, hempty, hav, hkd]
  · simp [initModule, hempty, hav, hkd]

/-- Witness for C7: a definition carrying only `apiVersion` overrides the
supplied `kind` parameter with `None`, and the run fails naming `kind`. -/
theorem claim_C7_init_precedence_witness :
    initModule (some (Value.vstr "Pod")) (some (Value.vstr "v1"))
      (some (.vdict [("apiVersion", Value.vstr "apps/v1")])) =
      .failJson
        ["Error: no kind specified. Use the kind parameter, or provide it as part of a resource_definition"] :=
  (claim_C7_init_precedence (some (Value.vstr "Pod")) (some (Value.vstr "v1"))
      [("apiVersion", Value.vstr "apps/v1")] (by simp)).2.1 rfl rfl

/-- C8: with state `present`, the object existing and `force` set, a
non-check-mode `perform_action` replaces unconditionally — the existing
object `ex` is arbitrary and the diff is never consulted — and terminates
with `changed=true`, issuing exactly the get and the replace. -/
theorem claim_C8_force_replace (p : Params) (c : Cluster) (defn : Fields)
    (k : String) (ex : Fields) (v : Value)
    (hk : lookup defn "kind" = some (.vstr k))
    (hl : strEndsWith k "list" = false)
    (hcm : p.checkMode = false)
    (hst : p.state ≠ some "absent")
    (hf : p.force = true)
    (hg : c.getR = .ok ex)
    (hr : c.replaceR = .ok v) :
    performAction p c defn =
      (.exited true v,
       [.get (resolvedName p defn) (resolvedNs p defn),
        .replace (resolvedName p defn) (resolvedNs p defn)]) := by
  simp [performAction, afterGet, hk, hl, hcm, hst, hf, hg, hr]

/-- Witness for C8 at a concrete input where the diff would be empty —
the replace happens anyway. -/
theorem claim_C8_force_replace_witness :
    performAction ⟨false, none, true, none, none⟩
      ⟨.ok [("data", Value.vstr "same")], .ok (.vdict []), .ok (.vdict []),
       .ok (.vdict [("ok", Value.vbool true)]), .ok (.vdict []), .ok ()⟩
      [("kind", Value.vstr "ConfigMap"), ("data", Value.vstr "same")]
      = (.exited true (.vdict [("ok", Value.vbool true)]),
         [.get none none, .replace none none]) :=
  claim_C8_force_replace ⟨false, none, true, none, none⟩
    ⟨.ok [("data", Value.vstr "same")], .ok (.vdict []), .ok (.vdict []),
     .ok (.vdict [("ok", Value.vbool true)]), .ok (.vdict []), .ok ()⟩
    [("kind", Value.vstr "ConfigMap"), ("data", Value.vstr "same")]
    "ConfigMap" [("data", Value.vstr "same")] (.vdict [("ok", Value.vbool true)])
    rfl rfl rfl (by decide) rfl rfl rfl

/-- C9 (code bug): the run produces no terminal report at all.  On every
non-empty definitions list, the first iteration of `execute_module`
raises `TypeError` at line 90 — the one-parameter `exact_match` called
as a bound method — so `perform_action` is never reached, zero cluster
calls are issued, and no definition's outcome is ever externally
visible, against the claim's exactly-one terminal report.  The crash is
the first iteration's: the outcome is independent of every definition,
so nothing after the first is processed.  (`perform_action` itself never
returns normally, as the claim's first half states: every `Outcome`
constructor is terminal.) -/
theorem claim_C9_typeerror_no_report (p : Params) (c : Cluster) (d : Fields)
    (rest : List Fields) :
    executeModule p c (d :: rest) =
      some (.pyError
        "TypeError: exact_match() takes 1 positional argument but 2 were given",
        []) := by
  have h : ∀ (l : List Fields) (r : Outcome × List Call),
      List.foldl
        (fun (acc : Option (Outcome × List Call)) (_d : Fields) =>
          match acc with
          | some r => some r
          | none =>
              some (.pyError
                "TypeError: exact_match() takes 1 positional argument but 2 were given",
                []))
        (some r) l = some r := by
    intro l
    induction l with
    | nil => intro r; rfl
    | cons x xs ih => intro r; exact ih r
  simpa [executeModule] using
    h rest
      (.pyError
        "TypeError: exact_match() takes 1 positional argument but 2 were given",
        [])

/-- C10: under check mode, both the force-replace branch and the update
branch (existing present, not forced, non-empty diff) read the local
`k8s_obj` without any execution path having assigned it, so neither can
complete its documented report path. -/
theorem claim_C10_unbound_local (p : Params) (c : Cluster) (defn : Fields)
    (k : String) (ex : Fields)
    (hk : lookup defn "kind" = some (.vstr k))
    (hl : strEndsWith k "list" = false)
    (hcm : p.checkMode = true)
    (hst : p.state ≠ some "absent")
    (hg : c.getR = .ok ex)
    (hbr : p.force = true ∨ (p.force = false ∧ objMatches defn ex = false)) :
    (performAction p c defn).1 = .unboundLocal "k8s_obj" := by
  rcases hbr with hf | ⟨hf, hm⟩
  · simp [performAction, afterGet, hk, hl, hcm, hst, hg, hf]
  · simp [performAction, afterGet, hk, hl, hcm, hst, hg, hf, hm]

/-- Witness for C10 at a concrete check-mode forced replace. -/
theorem claim_C10_unbound_local_witness :
    (performAction ⟨true, none, true, none, none⟩
      ⟨.ok [], .ok (.vdict []), .ok (.vdict []), .ok (.vdict []), .ok (.vdict []), .ok ()⟩
      [("kind", Value.vstr "ConfigMap")]).1 = .unboundLocal "k8s_obj" :=
  claim_C10_unbound_local ⟨true, none, true, none, none⟩
    ⟨.ok [], .ok (.vdict []), .ok (.vdict []), .ok (.vdict []), .ok (.vdict []), .ok ()⟩
    [("kind", Value.vstr "ConfigMap")] "ConfigMap" [] rfl rfl rfl (by decide) rfl
    (Or.inl rfl)

